import Mathlib

/-!
Verification development for the rag-ai-chat repository.

The repository is a small Bun/Elysia RAG chat server.  Its own code
(`src/config/app.config.ts`, `src/services/rag.service.ts`,
`src/services/file-upload.service.ts`, `src/services/database.service.ts`,
`src/index.ts`) contributes configuration loading, HTTP handlers, file-upload
handling and thin wrappers around the external `@llm-tools/embedjs` library.

The embedding below models those wrappers faithfully.  The external library
calls (`addLoader`, `query`, the builder in `initialize`) are modelled by
explicit outcome parameters: `LoaderRun` records which chunk writes the
library performed before returning or throwing, and generator calls are an
`Except` outcome.  Everything the repository's own code does around those
calls (guard checks, error wrapping, cleanup, return values) is translated
directly from the TypeScript source.
-/

namespace RagChat

/-! ### Configuration — src/config/app.config.ts -/

/-- The chat section of `appConfig`. -/
structure ChatConfig where
  chunkSize : Nat
  chunkOverlap : Nat
deriving DecidableEq, Repr

/-- The environment variables the chat section reads (`CHUNK_SIZE`,
`CHUNK_OVERLAP`).  `none` models an unset or non-numeric variable
(`Number(...)` yields `NaN`, which is falsy, so the default applies). -/
structure ChatEnv where
  chunkSizeVar : Option Nat
  chunkOverlapVar : Option Nat
deriving DecidableEq, Repr

/-- `Number(process.env.X) || default`: unset, non-numeric, or `0` (falsy)
falls back to the default. -/
def jsNumOr (v : Option Nat) (d : Nat) : Nat :=
  match v with
  | none => d
  | some 0 => d
  | some n => n

/-- `appConfig.chat` from app.config.ts lines 64-67. -/
def appChatConfig (e : ChatEnv) : ChatConfig :=
  ⟨jsNumOr e.chunkSizeVar 400, jsNumOr e.chunkOverlapVar 50⟩

inductive ConfigError where
  | invalidChunking
deriving DecidableEq, Repr

/-- Startup configuration loading as in app.config.ts: the module just
evaluates `appConfig` (defaults applied), performing no validation of any
relation between `chunkSize` and `chunkOverlap`, so it never fails. -/
def startupConfig (e : ChatEnv) : Except ConfigError ChatConfig :=
  .ok (appChatConfig e)

/-! ### Vector store records and service state -/

/-- One vector record as visible at the store level: its source identifier
(URL or file path handed to the loader) and chunk index. -/
structure Record where
  source : String
  chunkIndex : Nat
deriving DecidableEq, Repr

/-- Observable state of the RAGService singleton: whether
`this.ragApplication` is set, and the records in the vector store.
The class has no other fields (rag.service.ts lines 11-15); in particular
it keeps no per-source in-flight markers. -/
structure SvcState where
  initialized : Bool
  store : List Record
deriving DecidableEq, Repr

/-- The errors the repository's own code throws (each constructor is one
`throw new Error(...)` site; the payload is the interpolated name). -/
inductive RagError where
  | notInitialized
  | loadFailed (name : String)
  | ingestionInProgress
  | emptyQuery
  | generationFailed
  | clearFailed
  | unsupportedFileType (t : String)
deriving DecidableEq, Repr

/-- Outcome of the external library's `addLoader` call: the chunk indices it
wrote to the store before returning normally or before throwing. -/
inductive LoaderRun where
  | succeeds (chunks : List Nat)
  | failsAfter (chunks : List Nat)
deriving DecidableEq, Repr

/-- The records a loader run leaves in the store for a given source. -/
def LoaderRun.writes (source : String) : LoaderRun → List Record
  | .succeeds cs => cs.map (Record.mk source)
  | .failsAfter cs => cs.map (Record.mk source)

/-- Constructor arguments of the `WebLoader` built in `addWebSource`. -/
structure WebLoaderParams where
  urlOrContent : String
  chunkSize : Nat
  chunkOverlap : Nat
deriving DecidableEq, Repr

/-- The characters after the first occurrence of `marker`, when present. -/
def afterMarker (marker : List Char) : List Char → Option (List Char)
  | [] => none
  | c :: rest =>
      if marker.isPrefixOf (c :: rest) then some ((c :: rest).drop marker.length)
      else afterMarker marker rest

/-- `new URL(url).hostname` for `scheme://host/path`-shaped URLs (the /chat
and /add-source handlers validate the URL shape with `new URL` first). -/
def hostname (url : String) : String :=
  match afterMarker ("://").data url.data with
  | some rest => String.mk (rest.takeWhile (fun c => c != '/'))
  | none => ""

/-! ### RAGService.addWebSource — rag.service.ts lines 61-83 -/

structure WebResult where
  result : Except RagError String
  state : SvcState
  loaderCalls : List WebLoaderParams
deriving Repr

/-- `addWebSource`: guard on `this.ragApplication`; build a `WebLoader` with
the configured chunk parameters and run `addLoader`; on success return
`<div>- hostname</div>`; on any thrown error rethrow
`Failed to load web source: url`.  Nothing is ever removed from the store. -/
def addWebSource (st : SvcState) (cfg : ChatConfig) (url : String)
    (run : LoaderRun) : WebResult :=
  if st.initialized = false then ⟨.error .notInitialized, st, []⟩
  else
    match run with
    | .succeeds _ =>
        ⟨.ok ("<div>- " ++ hostname url ++ "</div>"),
         ⟨st.initialized, st.store ++ run.writes url⟩,
         [⟨url, cfg.chunkSize, cfg.chunkOverlap⟩]⟩
    | .failsAfter _ =>
        ⟨.error (.loadFailed url),
         ⟨st.initialized, st.store ++ run.writes url⟩,
         [⟨url, cfg.chunkSize, cfg.chunkOverlap⟩]⟩

/-! ### RAGService.createLoader — rag.service.ts lines 178-188 -/

inductive Loader where
  | pdfLoader (filePathOrUrl : String)
  | markdownLoader (filePathOrUrl : String)
deriving DecidableEq, Repr

/-- `createLoader`: dispatch on the declared content type; the default
branch throws `Unsupported file type: t` (carrying only the type). -/
def createLoader (filePath : String) (fileType : String) :
    Except RagError Loader :=
  if fileType = "application/pdf" then .ok (.pdfLoader filePath)
  else if fileType = "text/markdown" then .ok (.markdownLoader filePath)
  else if fileType = "text/plain" then .ok (.markdownLoader filePath)
  else .error (.unsupportedFileType fileType)

/-! ### RAGService.addFileSource — rag.service.ts lines 88-134 -/

structure FileResult where
  result : Except RagError String
  state : SvcState
  unlinkAttempted : Bool
deriving Repr

/-- `addFileSource`: guard on `this.ragApplication` (before the try block, so
no cleanup on that path); inside the try, `createLoader` then `addLoader`.
On success, attempt `fs.unlink` (failure only warned) and return
`<div>- fileName</div>`.  On any error thrown inside the try (unsupported
type or a loader failure), attempt `fs.unlink` (failure only warned) and
throw `Failed to load file: fileName`.  No store rollback occurs on either
path; `unlinkOk` (whether the unlink itself succeeds) never affects the
result. -/
def addFileSource (st : SvcState) (filePath fileType fileName : String)
    (run : LoaderRun) (unlinkOk : Bool) : FileResult :=
  if st.initialized = false then ⟨.error .notInitialized, st, false⟩
  else
    match createLoader filePath fileType with
    | .error _ => ⟨.error (.loadFailed fileName), st, true⟩
    | .ok _ =>
        match run with
        | .succeeds _ =>
            ⟨.ok ("<div>- " ++ fileName ++ "</div>"),
             ⟨st.initialized, st.store ++ run.writes filePath⟩, true⟩
        | .failsAfter _ =>
            ⟨.error (.loadFailed fileName),
             ⟨st.initialized, st.store ++ run.writes filePath⟩, true⟩

/-! ### RAGService.clearSources — rag.service.ts lines 156-173 -/

structure ClearResult where
  result : Except RagError Unit
  state : SvcState
deriving Repr

/-- `clearSources`: `fs.unlink` the database file, swallowing any failure
("did not exist or could not be removed"); then rebuild the application via
the builder (`initOk` models that external call).  `unlinkOk` is whether
the unlink actually removed a store file: when it did, the rebuilt
application opens a newly created, empty store; when the unlink failed —
because no file existed (records already empty) or because it could not be
removed (e.g. EACCES, records surviving) — the rebuild opens whatever is at
the path, so the prior records remain.  On builder failure the old handle
is kept and `Failed to clear sources` is thrown. -/
def clearSources (st : SvcState) (unlinkOk : Bool) (initOk : Bool) :
    ClearResult :=
  let survivors := if unlinkOk then [] else st.store
  if initOk then ⟨.ok (), ⟨true, survivors⟩⟩
  else ⟨.error .clearFailed, ⟨st.initialized, survivors⟩⟩

/-! ### RAGService.query / formatResponse — rag.service.ts lines 139-151, 193-213 -/

/-- The shapes of the external library's query response that
`formatResponse` probes: a plain string, or an object whose `content` /
`text` fields may each be absent (`none`) or present. -/
inductive RAGAnswer where
  | str (s : String)
  | obj (content : Option String) (text : Option String)
deriving DecidableEq, Repr

/-- One `"name":"value"` member of a JSON object. -/
def jsonField (name v : String) : String :=
  "\"" ++ name ++ "\":\"" ++ v ++ "\""

/-- `JSON.stringify` on the modelled response shapes. -/
def jsonStringify : RAGAnswer → String
  | .str s => "\"" ++ s ++ "\""
  | .obj c t =>
      "\x7b" ++ String.intercalate ","
        ((c.map (jsonField "content")).toList ++ (t.map (jsonField "text")).toList)
      ++ "\x7d"

/-- The `else if`/`else` chain of `formatResponse` after the `content`
branch was not taken: `"text" in answer && answer.text` (presence and JS
truthiness, i.e. non-empty), else `JSON.stringify(answer)`. -/
def formatFallback (c t : Option String) : String :=
  match t with
  | some tv => if tv.isEmpty then jsonStringify (.obj c t) else tv
  | none => jsonStringify (.obj c t)

/-- `formatResponse`: return `answer.content` when the field is present and
truthy, else `answer.text` when present and truthy, else the answer itself
when it is a string, else `JSON.stringify(answer)`. -/
def formatResponse : RAGAnswer → String
  | .str s => s
  | .obj (some cv) t => if cv.isEmpty then formatFallback (some cv) t else cv
  | .obj none t => formatFallback none t

/-- Modelled from the spec: "a tagged result type with one required field
(answer text)" — the generator's answer text carried by a response, used to
compare `formatResponse` against the spec's "returns its text verbatim". -/
def generatorText : RAGAnswer → String
  | .str s => s
  | .obj (some c) _ => c
  | .obj none (some t) => t
  | .obj none none => ""

/-- `RAGService.query`: guard on `this.ragApplication`; call the library's
`query` (outcome `gen`); format its answer; wrap any thrown error as
`Failed to process query`. -/
def ragQuery (st : SvcState) (gen : Except Unit RAGAnswer) :
    Except RagError String :=
  if st.initialized = false then .error .notInitialized
  else
    match gen with
    | .ok a => .ok (formatResponse a)
    | .error _ => .error .generationFailed

/-! ### POST /chat handler — src/index.ts lines 139-165 -/

/-- `answer.replace(/"/g, "&quot;")`. -/
def escapeQuotes (s : String) : String :=
  s.replace "\"" "&quot;"

/-- The assistant-message wrapper built by the /chat handler. -/
def htmlWrap (answer : String) : String :=
  "<div class=\"assistant-message\" data-markdown=\"" ++ escapeQuotes answer
    ++ "\">" ++ answer ++ "</div>"

structure ChatResult where
  result : Except RagError String
  downstreamCalls : Nat
deriving Repr

/-- JS `String.prototype.trim`: strip leading and trailing whitespace. -/
def jsTrim (s : String) : String :=
  String.mk
    (((s.data.dropWhile Char.isWhitespace).reverse.dropWhile
      Char.isWhitespace).reverse)

/-- The /chat handler: reject when `!body.query || typeof body.query !==
"string" || body.query.trim().length === 0` (for a string body this is
exactly: the trimmed query is empty) with `Query cannot be empty`; then
reject when the service is uninitialized; otherwise call
`ragService.query(body.query.trim())` — the single downstream call, which
performs embedding, retrieval and generation.  `downstreamCalls` counts
those `ragService.query` invocations. -/
def chatHandler (st : SvcState) (q : String) (gen : Except Unit RAGAnswer) :
    ChatResult :=
  if (jsTrim q).isEmpty then ⟨.error .emptyQuery, 0⟩
  else if st.initialized = false then ⟨.error .notInitialized, 0⟩
  else
    match ragQuery st gen with
    | .ok answer => ⟨.ok (htmlWrap answer), 1⟩
    | .error e => ⟨.error e, 1⟩

/-! ### FileUploadService — src/services/file-upload.service.ts -/

/-- `appConfig.uploads.allowedTypes`. -/
def allowedTypes : List String :=
  ["application/pdf", "text/markdown", "text/plain"]

/-- `validateFile`: size, type and name checks, in that order; `none`
means valid.  (The size message's interpolated megabyte figure is kept
abstractly as the plain byte bound.) -/
def validateFile (size : Nat) (ftype : String) (name : String)
    (maxFileSize : Nat) : Option String :=
  if size > maxFileSize then
    some "File size exceeds maximum allowed size"
  else if (allowedTypes.contains ftype) = false then
    some ("File type " ++ ftype ++ " is not supported. Allowed types: "
      ++ String.intercalate ", " allowedTypes)
  else if name = "" then some "File name is required"
  else none

/-- The character class kept by `generateSafeFilename`'s regex
`[^a-zA-Z0-9.-]`: ASCII letters, digits, dot, hyphen. -/
def isSafeChar (c : Char) : Bool :=
  c.isAlpha || c.isDigit || c == '.' || c == '-'

/-- One step of `originalName.replace(/[^a-zA-Z0-9.-]/g, "_")`. -/
def sanitizeChar (c : Char) : Char :=
  if isSafeChar c then c else '_'

/-- `safeName.split(".")` on the character list: split at every dot;
`""` yields `[""]`, consecutive dots yield empty parts. -/
def splitOnDot : List Char → List (List Char)
  | [] => [[]]
  | c :: rest =>
      match splitOnDot rest with
      | [] => []
      | h :: t => if c = '.' then [] :: h :: t else (c :: h) :: t

/-- `parts.join(".")` on character lists. -/
def joinDots : List (List Char) → List Char
  | [] => []
  | [p] => p
  | p :: ps => p ++ '.' :: joinDots ps

/-- The decimal digit character for `d < 10`. -/
def digitChar (d : Nat) : Char :=
  Char.ofNat (48 + d)

/-- Decimal rendering with explicit fuel (the fuel only bounds recursion
depth; any fuel ≥ the digit count yields the full decimal rendering). -/
def natToDecAux (fuel : Nat) (n : Nat) : List Char :=
  match fuel with
  | 0 => []
  | fuel + 1 =>
      if n < 10 then [digitChar n]
      else natToDecAux fuel (n / 10) ++ [digitChar (n % 10)]

/-- Decimal rendering of the `Date.now()` timestamp. -/
def natToDec (n : Nat) : List Char :=
  natToDecAux (n + 1) n

/-- `generateSafeFilename` (file-upload.service.ts lines 106-122): sanitize
every character, then insert `_timestamp` before the last dot-separated
extension when one exists, else append it. -/
def generateSafeFilename (originalName : String) (timestamp : Nat) : String :=
  let safeName := originalName.data.map sanitizeChar
  let parts := splitOnDot safeName
  if parts.length > 1 then
    let extension := parts.getLastD []
    let nameWithoutExt := joinDots parts.dropLast
    String.mk (nameWithoutExt ++ '_' :: natToDec timestamp ++ '.' :: extension)
  else
    String.mk (safeName ++ '_' :: natToDec timestamp)

/-- `join(this.uploadsDir, safeFilename)` in `saveFile` (lines 84-86): the
saved path is the uploads directory plus the generated name as a single
further path component. -/
def savedFilePath (uploadsDir : String) (originalName : String)
    (timestamp : Nat) : String :=
  uploadsDir ++ "/" ++ generateSafeFilename originalName timestamp

/-- The characters that can appear in a generated filename: the kept class
plus the replacement and separator `'_'`. -/
def allowedOutChar (c : Char) : Bool :=
  isSafeChar c || c == '_'

/-- Substring test used to state what a returned confirmation contains. -/
def containsSub (needle : List Char) : List Char → Bool
  | [] => needle.isEmpty
  | c :: rest => needle.isPrefixOf (c :: rest) || containsSub needle rest

/-! ### Helper lemmas -/

lemma sanitizeChar_allowed (c : Char) : allowedOutChar (sanitizeChar c) = true := by
  unfold sanitizeChar
  by_cases h : isSafeChar c = true
  · simp [h, allowedOutChar]
  · simp [h]
    decide

lemma all_mono {p q : Char → Bool} (hpq : ∀ c, p c = true → q c = true) :
    ∀ l : List Char, l.all p = true → l.all q = true := by
  intro l h
  rw [List.all_eq_true] at h ⊢
  intro c hc
  exact hpq c (h c hc)

lemma allowed_not_slash (c : Char) (h : allowedOutChar c = true) :
    (c != '/') = true := by
  by_cases hc : c = '/'
  · subst hc
    exact absurd h (by decide)
  · simp [hc]

lemma digitChar_isDigit (d : Nat) (h : d < 10) : (digitChar d).isDigit = true := by
  interval_cases d <;> decide

lemma digit_allowed (c : Char) (h : c.isDigit = true) : allowedOutChar c = true := by
  simp [allowedOutChar, isSafeChar, h]

lemma natToDecAux_digits :
    ∀ fuel n, (natToDecAux fuel n).all Char.isDigit = true := by
  intro fuel
  induction fuel with
  | zero => intro n; rfl
  | succ fuel ih =>
      intro n
      unfold natToDecAux
      by_cases h : n < 10
      · simp [h, digitChar_isDigit n h]
      · simp [h, List.all_append, ih (n / 10),
          digitChar_isDigit (n % 10) (Nat.mod_lt n (by omega))]

lemma natToDec_allowed (n : Nat) : (natToDec n).all allowedOutChar = true :=
  all_mono digit_allowed _ (natToDecAux_digits (n + 1) n)

lemma splitOnDot_all (P : Char → Bool) :
    ∀ l : List Char, l.all P = true → ∀ p ∈ splitOnDot l, p.all P = true := by
  intro l
  induction l with
  | nil =>
      intro _ p hp
      simp [splitOnDot] at hp
      subst hp
      rfl
  | cons c rest ih =>
      intro hall p hp
      rw [List.all_cons, Bool.and_eq_true] at hall
      obtain ⟨hPc, hrest⟩ := hall
      unfold splitOnDot at hp
      cases hsp : splitOnDot rest with
      | nil => rw [hsp] at hp; simp at hp
      | cons h t =>
          rw [hsp] at hp
          by_cases hc : c = '.'
          · simp [hc] at hp
            rcases hp with hp | hp | hp
            · subst hp; rfl
            · exact ih hrest p (by rw [hsp, hp]; exact List.mem_cons_self h t)
            · exact ih hrest p (by rw [hsp]; exact List.mem_cons_of_mem h hp)
          · simp [hc] at hp
            rcases hp with hp | hp
            · subst hp
              rw [List.all_cons]
              have hh : h.all P = true :=
                ih hrest h (by rw [hsp]; exact List.mem_cons_self h t)
              simp [hPc, hh]
            · exact ih hrest p (by rw [hsp]; exact List.mem_cons_of_mem h hp)

lemma joinDots_all (P : Char → Bool) (hdot : P '.' = true) :
    ∀ ps : List (List Char), (∀ p ∈ ps, p.all P = true) →
      (joinDots ps).all P = true := by
  intro ps
  induction ps with
  | nil => intro _; rfl
  | cons p ps ih =>
      intro hall
      cases ps with
      | nil => simpa [joinDots] using hall p (by simp)
      | cons q qs =>
          have hp : p.all P = true := hall p (by simp)
          have hrest : (joinDots (q :: qs)).all P = true :=
            ih (fun r hr => hall r (by simp [hr]))
          simp [joinDots, List.all_append, List.all_cons, hp, hdot, hrest]

lemma getLastD_all (P : Char → Bool) :
    ∀ (ps : List (List Char)) (d : List Char), d.all P = true →
      (∀ p ∈ ps, p.all P = true) → (ps.getLastD d).all P = true := by
  intro ps
  induction ps with
  | nil => intro d hd _; simpa [List.getLastD] using hd
  | cons p ps ih =>
      intro d _ hall
      rw [List.getLastD_cons]
      exact ih p (hall p (by simp)) (fun r hr => hall r (by simp [hr]))

lemma dropLast_all (P : Char → Bool) (ps : List (List Char))
    (hall : ∀ p ∈ ps, p.all P = true) :
    ∀ p ∈ ps.dropLast, p.all P = true :=
  fun p hp => hall p (List.dropLast_subset ps hp)

/-! ### Claim theorems -/

/-- C1 (counterexample): ingesting a PDF whose loader run writes chunk 0 and
then fails leaves that chunk in the store — the record for the source is
still present and the count is 1, not the pre-attempt 0.  The catch block of
`addFileSource` only unlinks the temporary file; it performs no store
rollback. -/
theorem c1_counterexample :
    (addFileSource ⟨true, []⟩ "uploads/doc.pdf" "application/pdf" "doc.pdf"
        (.failsAfter [0]) true).result = .error (.loadFailed "doc.pdf")
    ∧ (addFileSource ⟨true, []⟩ "uploads/doc.pdf" "application/pdf" "doc.pdf"
        (.failsAfter [0]) true).state.store = [⟨"uploads/doc.pdf", 0⟩]
    ∧ (addFileSource ⟨true, []⟩ "uploads/doc.pdf" "application/pdf" "doc.pdf"
        (.failsAfter [0]) true).state.store.length ≠ ([] : List Record).length :=
  ⟨rfl, rfl, by decide⟩

/-- C1 (amended): when a file ingestion fails mid-pipeline after some chunks
were written, the chunks already written for that source remain in the store
(no rollback is performed); the attempt surfaces `Failed to load file` and
only attempts the temporary-file cleanup. -/
theorem c1_no_rollback (store : List Record) (path ftype name : String)
    (cs : List Nat) (unlinkOk : Bool) (L : Loader)
    (h : createLoader path ftype = .ok L) :
    addFileSource ⟨true, store⟩ path ftype name (.failsAfter cs) unlinkOk =
      ⟨.error (.loadFailed name),
       ⟨true, store ++ cs.map (Record.mk path)⟩, true⟩ := by
  simp [addFileSource, h, LoaderRun.writes]

/-- C1 (witness): the amended no-rollback theorem at a concrete input. -/
theorem c1_no_rollback_witness :
    addFileSource ⟨true, []⟩ "uploads/a.pdf" "application/pdf" "a.pdf"
        (.failsAfter [0, 1]) true =
      ⟨.error (.loadFailed "a.pdf"),
       ⟨true, [⟨"uploads/a.pdf", 0⟩, ⟨"uploads/a.pdf", 1⟩]⟩, true⟩ := by
  have h := c1_no_rollback [] "uploads/a.pdf" "application/pdf" "a.pdf"
    [0, 1] true (.pdfLoader "uploads/a.pdf") rfl
  simpa using h

/-- C2 (counterexample): with an ingestion of `https://a.com` mid-flight
(its chunk 0 already written, its loader still running), a second
`addWebSource` for the same URL is not rejected with `IngestionInProgress`:
it succeeds and performs its own chunk writes, duplicating records.  The
service keeps no per-source in-flight marker at all. -/
theorem c2_counterexample :
    (addWebSource ⟨true, [⟨"https://a.com", 0⟩]⟩ ⟨400, 50⟩ "https://a.com"
        (.succeeds [0, 1])).result ≠ .error .ingestionInProgress
    ∧ (addWebSource ⟨true, [⟨"https://a.com", 0⟩]⟩ ⟨400, 50⟩ "https://a.com"
        (.succeeds [0, 1])).result = .ok "<div>- a.com</div>"
    ∧ (addWebSource ⟨true, [⟨"https://a.com", 0⟩]⟩ ⟨400, 50⟩ "https://a.com"
        (.succeeds [0, 1])).state.store =
      [⟨"https://a.com", 0⟩, ⟨"https://a.com", 0⟩, ⟨"https://a.com", 1⟩] := by
  refine ⟨?_, rfl, rfl⟩
  intro h
  rw [show (addWebSource ⟨true, [⟨"https://a.com", 0⟩]⟩ ⟨400, 50⟩
      "https://a.com" (.succeeds [0, 1])).result
      = .ok "<div>- a.com</div>" from rfl] at h
  exact Except.noConfusion h

/-- C2 (amended): the service performs no per-source concurrency control:
an ingestion request is never rejected with `IngestionInProgress`
(regardless of what else is in flight — the state holds no in-flight
information), and on an initialized service every request appends its own
loader run's chunk writes to the store. -/
theorem c2_no_inflight_tracking (st : SvcState) (cfg : ChatConfig)
    (url : String) (run : LoaderRun) :
    (addWebSource st cfg url run).result ≠ .error .ingestionInProgress
    ∧ (st.initialized = true →
        (addWebSource st cfg url run).state.store = st.store ++ run.writes url) := by
  cases hinit : st.initialized <;> cases run <;> simp [addWebSource, hinit]

/-- C2 (witness): the amended theorem at a concrete input. -/
theorem c2_no_inflight_tracking_witness :
    (addWebSource ⟨true, []⟩ ⟨400, 50⟩ "https://a.com"
        (.succeeds [0])).result ≠ .error .ingestionInProgress
    ∧ (addWebSource ⟨true, []⟩ ⟨400, 50⟩ "https://a.com"
        (.succeeds [0])).state.store =
      [] ++ (LoaderRun.succeeds [0]).writes "https://a.com" :=
  ⟨(c2_no_inflight_tracking ⟨true, []⟩ ⟨400, 50⟩ "https://a.com"
      (.succeeds [0])).1,
   (c2_no_inflight_tracking ⟨true, []⟩ ⟨400, 50⟩ "https://a.com"
      (.succeeds [0])).2 rfl⟩

/-- C3 (counterexample): a successful ingestion of
`https://example.com/docs` (two chunks written) returns the HTML fragment
`<div>- example.com</div>`: the full normalized URL does not occur in the
returned value, and no digit occurs in it, so it is not a confirmation
`{ sourceId := normalized URL, chunkCount := 2 }` in any rendering. -/
theorem c3_counterexample :
    (addWebSource ⟨true, []⟩ ⟨400, 50⟩ "https://example.com/docs"
        (.succeeds [0, 1])).result = .ok "<div>- example.com</div>"
    ∧ containsSub ("https://example.com/docs").data
        ("<div>- example.com</div>").data = false
    ∧ ("<div>- example.com</div>").data.any Char.isDigit = false :=
  ⟨rfl, by decide, by decide⟩

/-- C3 (amended): a successful web ingestion returns the HTML fragment
`<div>- hostname</div>` built from the URL's hostname; no chunk count and
no full URL is part of the returned value. -/
theorem c3_returns_hostname_div (st : SvcState) (cfg : ChatConfig)
    (url : String) (cs : List Nat) (h : st.initialized = true) :
    (addWebSource st cfg url (.succeeds cs)).result =
      .ok ("<div>- " ++ hostname url ++ "</div>") := by
  simp [addWebSource, h]

/-- C3 (witness): the amended theorem at a concrete input. -/
theorem c3_returns_hostname_div_witness :
    (addWebSource ⟨true, []⟩ ⟨400, 50⟩ "https://a.com"
        (.succeeds [0])).result = .ok "<div>- a.com</div>" :=
  c3_returns_hostname_div ⟨true, []⟩ ⟨400, 50⟩ "https://a.com" [0] rfl

/-- C4 (counterexample): the configuration `CHUNK_SIZE=400,
CHUNK_OVERLAP=500` violates `overlap < chunkSize`, yet startup accepts it
(configuration loading never fails) and an ingestion proceeds under it,
passing `chunkSize = 400, chunkOverlap = 500` straight to the loader. -/
theorem c4_counterexample :
    (appChatConfig ⟨some 400, some 500⟩).chunkSize
        ≤ (appChatConfig ⟨some 400, some 500⟩).chunkOverlap
    ∧ startupConfig ⟨some 400, some 500⟩ = .ok (appChatConfig ⟨some 400, some 500⟩)
    ∧ (addWebSource ⟨true, []⟩ (appChatConfig ⟨some 400, some 500⟩)
        "https://a.com" (.succeeds [0])).result = .ok "<div>- a.com</div>"
    ∧ (addWebSource ⟨true, []⟩ (appChatConfig ⟨some 400, some 500⟩)
        "https://a.com" (.succeeds [0])).loaderCalls =
      [⟨"https://a.com", 400, 500⟩] :=
  ⟨by decide, rfl, rfl, rfl⟩

/-- C4 (amended): no `overlap < chunkSize` validation exists anywhere —
startup always succeeds with whatever values the environment yields, and
every ingestion on an initialized service passes the configured
`chunkSize`/`chunkOverlap` unchecked to the loader it constructs. -/
theorem c4_no_chunking_validation (env : ChatEnv) (st : SvcState)
    (cfg : ChatConfig) (url : String) (run : LoaderRun)
    (h : st.initialized = true) :
    startupConfig env = .ok (appChatConfig env)
    ∧ (addWebSource st cfg url run).loaderCalls =
        [⟨url, cfg.chunkSize, cfg.chunkOverlap⟩] := by
  refine ⟨rfl, ?_⟩
  cases run <;> simp [addWebSource, h]

/-- C4 (witness): the amended theorem at a concrete input. -/
theorem c4_no_chunking_validation_witness :
    startupConfig ⟨some 400, some 500⟩ = .ok (appChatConfig ⟨some 400, some 500⟩)
    ∧ (addWebSource ⟨true, []⟩ ⟨400, 500⟩ "https://a.com"
        (.succeeds [0])).loaderCalls = [⟨"https://a.com", 400, 500⟩] :=
  c4_no_chunking_validation ⟨some 400, some 500⟩ ⟨true, []⟩ ⟨400, 500⟩
    "https://a.com" (.succeeds [0]) rfl

/-- C5 (counterexample): when the swallowed `fs.unlink` failure leaves a
non-empty store file in place (e.g. EACCES), `clearSources` still completes
successfully, yet the rebuilt application opens the surviving file: the old
record is still there and the count is 1, not 0. -/
theorem c5_counterexample :
    (clearSources ⟨true, [⟨"https://old.com", 0⟩]⟩ false true).result = .ok ()
    ∧ (clearSources ⟨true, [⟨"https://old.com", 0⟩]⟩ false true).state.store =
        [⟨"https://old.com", 0⟩]
    ∧ (clearSources ⟨true, [⟨"https://old.com", 0⟩]⟩ false true).state.store.length
        ≠ 0 :=
  ⟨rfl, rfl, by decide⟩

/-- C5 (amended): whenever `clearSources` completes successfully the
service is initialized and immediately usable — a following write
(`addWebSource` with a successful loader run) or query (`ragQuery` with a
successful generator call) succeeds with no further initialization step —
and the store holds zero records exactly in the cases where the unlink
removed the store file; when the swallowed unlink failure left the file in
place, the prior records survive the "successful" clear. -/
theorem c5_clear_resets (st st' : SvcState) (unlinkOk initOk : Bool)
    (h : clearSources st unlinkOk initOk = ⟨.ok (), st'⟩) :
    st'.initialized = true
    ∧ st'.store = (if unlinkOk = true then [] else st.store)
    ∧ (unlinkOk = true → st'.store.length = 0)
    ∧ (∀ cfg url cs, (addWebSource st' cfg url (.succeeds cs)).result =
        .ok ("<div>- " ++ hostname url ++ "</div>"))
    ∧ (∀ a, ragQuery st' (.ok a) = .ok (formatResponse a)) := by
  have hst : st' = ⟨true, if unlinkOk = true then [] else st.store⟩ := by
    cases initOk
    · simp [clearSources] at h
    · cases unlinkOk <;>
        simpa [clearSources] using (congrArg ClearResult.state h).symm
  subst hst
  refine ⟨rfl, rfl, ?_, ?_, ?_⟩
  · intro hu
    simp [hu]
  · intro cfg url cs
    simp [addWebSource]
  · intro a
    simp [ragQuery]

/-- C5 (witness): after a concrete successful clear of a non-empty store
whose file the unlink did remove, the store is empty and a concrete put
and a concrete query both succeed immediately. -/
theorem c5_clear_resets_witness :
    ((⟨true, []⟩ : SvcState)).store.length = 0
    ∧ (addWebSource ⟨true, []⟩ ⟨400, 50⟩ "https://a.com"
        (.succeeds [0])).result = .ok ("<div>- " ++ hostname "https://a.com" ++ "</div>")
    ∧ ragQuery ⟨true, []⟩ (.ok (.str "answer")) = .ok (formatResponse (.str "answer")) :=
  ⟨(c5_clear_resets ⟨false, [⟨"gone", 3⟩]⟩ ⟨true, []⟩ true true rfl).2.2.1 rfl,
   (c5_clear_resets ⟨false, [⟨"gone", 3⟩]⟩ ⟨true, []⟩ true true rfl).2.2.2.1
     ⟨400, 50⟩ "https://a.com" [0],
   (c5_clear_resets ⟨false, [⟨"gone", 3⟩]⟩ ⟨true, []⟩ true true rfl).2.2.2.2
     (.str "answer")⟩

/-- C6 (confirmed): the /chat handler rejects a question whose trimmed text
is empty with the empty-query error (`Query cannot be empty`) and performs
zero downstream calls (no embedder, store or generator invocation); every
question with non-empty trimmed text passes this check — its outcome is
never the empty-query error. -/
theorem c6_empty_query (st : SvcState) (q : String)
    (gen : Except Unit RAGAnswer) :
    ((jsTrim q).isEmpty = true → chatHandler st q gen = ⟨.error .emptyQuery, 0⟩)
    ∧ ((jsTrim q).isEmpty = false →
        (chatHandler st q gen).result ≠ .error .emptyQuery) := by
  constructor
  · intro h
    simp [chatHandler, h]
  · intro h
    cases hinit : st.initialized <;> cases gen <;>
      simp [chatHandler, ragQuery, h, hinit]

/-- C6 (witness): the empty-query theorem at concrete inputs — a
whitespace-only question is rejected with zero downstream calls, and a
non-empty question is not rejected as empty. -/
theorem c6_empty_query_witness :
    chatHandler ⟨true, []⟩ "   " (.ok (.str "hi")) = ⟨.error .emptyQuery, 0⟩
    ∧ (chatHandler ⟨true, []⟩ "what?" (.ok (.str "hi"))).result ≠
        .error .emptyQuery :=
  ⟨(c6_empty_query ⟨true, []⟩ "   " (.ok (.str "hi"))).1 rfl,
   (c6_empty_query ⟨true, []⟩ "what?" (.ok (.str "hi"))).2 rfl⟩

/-- C7 (confirmed): `createLoader` fails (with `Unsupported file type`,
carrying only the declared type and no text) exactly when the declared
content type is outside `{application/pdf, text/markdown, text/plain}`;
for `application/pdf` it selects the PDF loader and for the two text types
the markdown loader; and a file accepted by `validateFile` always has a
recognized type. -/
theorem c7_loader_selection (path t name : String) (sz maxFS : Nat) :
    (createLoader path t = .error (.unsupportedFileType t) ↔
      allowedTypes.contains t = false)
    ∧ (allowedTypes.contains t = true →
        createLoader path t =
          .ok (if t = "application/pdf" then .pdfLoader path
               else .markdownLoader path))
    ∧ (validateFile sz t name maxFS = none → allowedTypes.contains t = true) := by
  by_cases h1 : t = "application/pdf"
  · subst h1; refine ⟨by simp [createLoader, allowedTypes], ?_, ?_⟩ <;>
      intro _ <;> simp [createLoader, allowedTypes]
  · by_cases h2 : t = "text/markdown"
    · subst h2; refine ⟨by simp [createLoader, allowedTypes], ?_, ?_⟩ <;>
        intro _ <;> simp [createLoader, allowedTypes]
    · by_cases h3 : t = "text/plain"
      · subst h3; refine ⟨by simp [createLoader, allowedTypes], ?_, ?_⟩ <;>
          intro _ <;> simp [createLoader, allowedTypes]
      · have hnotmem : t ∉ allowedTypes := by
          simp [allowedTypes, h1, h2, h3]
        have hmem : allowedTypes.contains t = false := by
          simpa using hnotmem
        refine ⟨by simp [createLoader, h1, h2, h3, hmem, hnotmem], ?_, ?_⟩
        · intro hc; rw [hmem] at hc; exact absurd hc (by simp)
        · intro hv
          exfalso
          unfold validateFile at hv
          rw [hmem] at hv
          split at hv
          · exact Option.noConfusion hv
          · simp at hv

/-- C7 (witness): loader selection at concrete inputs — each recognized
type selects its loader, an unrecognized type fails with
`Unsupported file type`, and a validated file's type is recognized. -/
theorem c7_loader_selection_witness :
    createLoader "u/a.pdf" "application/pdf" = .ok (.pdfLoader "u/a.pdf")
    ∧ (createLoader "u/a.png" "image/png" =
        .error (.unsupportedFileType "image/png"))
    ∧ allowedTypes.contains "text/plain" = true :=
  ⟨by
    have h := (c7_loader_selection "u/a.pdf" "application/pdf" "a.pdf" 1 10).2.1 rfl
    simpa using h,
   by
    have h := (c7_loader_selection "u/a.png" "image/png" "a.png" 1 10).1.mpr rfl
    exact h,
   (c7_loader_selection "u/a.txt" "text/plain" "a.txt" 1 10).2.2 rfl⟩

/-- C8 (confirmed): for every file ingestion attempt on an initialized
service (the server only handles requests after successful startup
initialization), the temporary-file unlink is attempted on every path —
success, loader failure, and unsupported type — and whether that unlink
itself succeeds never changes the result or the store state; with a
recognized type, a successful loader run still returns the success
fragment and a failing one still surfaces `Failed to load file`. -/
theorem c8_cleanup_always (st : SvcState) (path t name : String)
    (run : LoaderRun) (uOk : Bool) (cs : List Nat) (L : Loader)
    (h : st.initialized = true) :
    (addFileSource st path t name run uOk).unlinkAttempted = true
    ∧ (addFileSource st path t name run uOk).result
        = (addFileSource st path t name run true).result
    ∧ (addFileSource st path t name run uOk).state
        = (addFileSource st path t name run true).state
    ∧ (createLoader path t = .ok L →
        (addFileSource st path t name (.succeeds cs) uOk).result =
          .ok ("<div>- " ++ name ++ "</div>"))
    ∧ (addFileSource st path t name (.failsAfter cs) uOk).result =
        .error (.loadFailed name) := by
  refine ⟨?_, ?_, ?_, ?_, ?_⟩
  · cases hc : createLoader path t <;> cases run <;>
      simp [addFileSource, h, hc]
  · rfl
  · rfl
  · intro hL
    simp [addFileSource, h, hL]
  · cases hc : createLoader path t <;> simp [addFileSource, h, hc]

/-- C8 (witness): cleanup behavior at concrete inputs — the unlink is
attempted both on a successful and on a failed ingestion, a failing unlink
leaves the successful outcome intact, and the failure outcome is the load
error. -/
theorem c8_cleanup_always_witness :
    (addFileSource ⟨true, []⟩ "u/a.pdf" "application/pdf" "a.pdf"
        (.succeeds [0]) false).unlinkAttempted = true
    ∧ (addFileSource ⟨true, []⟩ "u/a.pdf" "application/pdf" "a.pdf"
        (.succeeds [0]) false).result = .ok ("<div>- " ++ "a.pdf" ++ "</div>")
    ∧ (addFileSource ⟨true, []⟩ "u/a.pdf" "application/pdf" "a.pdf"
        (.failsAfter [0]) false).result = .error (.loadFailed "a.pdf") :=
  ⟨(c8_cleanup_always ⟨true, []⟩ "u/a.pdf" "application/pdf" "a.pdf"
      (.succeeds [0]) false [0] (.pdfLoader "u/a.pdf") rfl).1,
   (c8_cleanup_always ⟨true, []⟩ "u/a.pdf" "application/pdf" "a.pdf"
      (.succeeds [0]) false [0] (.pdfLoader "u/a.pdf") rfl).2.2.2.1 rfl,
   (c8_cleanup_always ⟨true, []⟩ "u/a.pdf" "application/pdf" "a.pdf"
      (.succeeds [0]) false [0] (.pdfLoader "u/a.pdf") rfl).2.2.2.2⟩

/-- C9 (counterexample): for the generator response `{ content: "" }`
(answer text is the empty string), `query` does not return the text
verbatim: the empty `content` field is falsy, the `text` probe fails, and
the returned string is `JSON.stringify` of the whole response object, which
differs from the generator's text. -/
theorem c9_counterexample :
    generatorText (.obj (some "") none) = ""
    ∧ ragQuery ⟨true, []⟩ (.ok (.obj (some "") none)) =
        .ok "\x7b\"content\":\"\"\x7d"
    ∧ ("\x7b\"content\":\"\"\x7d" : String) ≠ "" :=
  ⟨rfl, rfl, by decide⟩

/-- C9 (amended): on an initialized service, `query` returns the
generator's text verbatim whenever the response is a plain string or an
object with a non-empty `content` field; it falls back to a JSON rendering
for degenerate shapes (e.g. an empty `content` with no `text`); and it
fails with the generation error exactly when the generator call itself
fails — a successful generator call never yields that error. -/
theorem c9_query_formatting (st : SvcState) (t : Option String)
    (h : st.initialized = true) :
    (∀ s : String, ragQuery st (.ok (.str s)) = .ok s)
    ∧ (∀ s : String, ¬ s = "" → ragQuery st (.ok (.obj (some s) t)) = .ok s)
    ∧ ragQuery st (.error ()) = .error .generationFailed
    ∧ (∀ a : RAGAnswer, ragQuery st (.ok a) ≠ .error .generationFailed) := by
  refine ⟨?_, ?_, ?_, ?_⟩
  · intro s
    simp [ragQuery, h, formatResponse]
  · intro s hs
    have hse : s.isEmpty = false := by
      rw [Bool.eq_false_iff]
      intro hI
      exact hs ((String.isEmpty_iff s).mp hI)
    simp [ragQuery, h, formatResponse, hse]
  · simp [ragQuery, h]
  · intro a
    simp [ragQuery, h]

/-- C9 (witness): the amended formatting theorem at concrete inputs. -/
theorem c9_query_formatting_witness :
    ragQuery ⟨true, []⟩ (.ok (.str "hi")) = .ok "hi"
    ∧ ragQuery ⟨true, []⟩ (.ok (.obj (some "ans") none)) = .ok "ans"
    ∧ ragQuery ⟨true, []⟩ (.error ()) = .error .generationFailed
    ∧ ragQuery ⟨true, []⟩ (.ok (.str "x")) ≠ .error .generationFailed :=
  ⟨(c9_query_formatting ⟨true, []⟩ none rfl).1 "hi",
   (c9_query_formatting ⟨true, []⟩ none rfl).2.1 "ans" (by decide),
   (c9_query_formatting ⟨true, []⟩ none rfl).2.2.1,
   (c9_query_formatting ⟨true, []⟩ none rfl).2.2.2 (.str "x")⟩

/-- C10 (confirmed): for every original filename and timestamp, the
generated safe filename consists only of ASCII letters, digits, `.`, `-`
and `_`; in particular it contains no `/`, so the path built by `saveFile`
is the uploads directory plus a single separator-free component. -/
theorem c10_safe_filename (dir name : String) (ts : Nat) :
    ((generateSafeFilename name ts).data.all allowedOutChar) = true
    ∧ ((generateSafeFilename name ts).data.all (fun c => c != '/')) = true
    ∧ savedFilePath dir name ts = dir ++ "/" ++ generateSafeFilename name ts := by
  have hsan : (name.data.map sanitizeChar).all allowedOutChar = true := by
    rw [List.all_map]
    rw [List.all_eq_true]
    intro c _
    exact sanitizeChar_allowed c
  have hparts : ∀ p ∈ splitOnDot (name.data.map sanitizeChar),
      p.all allowedOutChar = true :=
    splitOnDot_all allowedOutChar _ hsan
  have hmain : (generateSafeFilename name ts).data.all allowedOutChar = true := by
    unfold generateSafeFilename
    by_cases hlen : (splitOnDot (name.data.map sanitizeChar)).length > 1
    · simp only [hlen, if_true]
      show ((joinDots (splitOnDot (name.data.map sanitizeChar)).dropLast
            ++ ('_' :: natToDec ts))
          ++ ('.' :: (splitOnDot (name.data.map sanitizeChar)).getLastD [])).all
          allowedOutChar = true
      simp only [List.all_append, List.all_cons, Bool.and_eq_true]
      exact ⟨⟨joinDots_all allowedOutChar (by decide) _
          (dropLast_all allowedOutChar _ hparts),
        by decide, natToDec_allowed ts⟩,
        by decide, getLastD_all allowedOutChar _ [] rfl hparts⟩
    · simp only [hlen, if_false]
      show (name.data.map sanitizeChar ++ '_' :: natToDec ts).all
          allowedOutChar = true
      rw [List.all_append, List.all_cons]
      simp only [Bool.and_eq_true]
      exact ⟨hsan, by decide, natToDec_allowed ts⟩
  exact ⟨hmain, all_mono allowed_not_slash _ hmain, rfl⟩

end RagChat
